import Mathlib

/-!
Verification of the auto-commit hook (`src/auto_commit/auto_commit.py`) and
the LLM client cache (`src/litellm_langchain/get_completion_example.py`).

Strings are embedded as `String` at the interface and `List Char` in the
string-processing kernels (Python indexes strings by character).  External
effects (git child processes, the file system, environment variables) are
embedded as an explicit environment record; `execute` additionally returns
the trace of git invocations, in order, so that claims about which
version-control commands run can be stated.
-/

/-- Python truthiness of an optional string: `None` and `""` are falsy. -/
def pyTruthyS : Option String → Bool
  | some s => !(s = "")
  | none => false

/-- Python `a or b` on optional strings. -/
def pyOrS (a b : Option String) : Option String :=
  if pyTruthyS a then a else b

/-- Python `a or b` where the fallback is a plain string. -/
def pyOrStr (a : Option String) (b : String) : String :=
  match a with
  | some s => if s = "" then b else s
  | none => b

/-- Characters Python `str.strip()` removes. -/
def pyIsSpace (c : Char) : Bool :=
  c = ' ' || c = '\t' || c = '\n' || c = '\r' || c = '\x0b' || c = '\x0c'

/-- Python `str.strip()`. -/
def pyStrip (s : String) : String :=
  String.mk (((s.toList.dropWhile pyIsSpace).reverse.dropWhile pyIsSpace).reverse)

/-- Interleaving used by Python `s.replace("", repl)`. -/
def replaceJoin (repl : List Char) : List Char → List Char
  | [] => []
  | c :: cs => c :: (repl ++ replaceJoin repl cs)

/-- Python `str.replace` for a non-empty needle: leftmost, non-overlapping,
the replacement is not rescanned.  The `Nat` argument counts characters of a
matched needle still to be skipped. -/
def replaceAux (needle repl : List Char) : List Char → Nat → List Char
  | [], _ => []
  | _ :: cs, Nat.succ k => replaceAux needle repl cs k
  | c :: cs, 0 =>
    if needle.isPrefixOf (c :: cs) then
      repl ++ replaceAux needle repl cs (needle.length - 1)
    else
      c :: replaceAux needle repl cs 0

def replaceNE (needle repl s : List Char) : List Char :=
  replaceAux needle repl s 0

/-- Python `s.replace(needle, repl)` on character lists. -/
def replaceL (needle repl s : List Char) : List Char :=
  match needle with
  | [] => repl ++ replaceJoin repl s
  | _ :: _ => replaceNE needle repl s

/-- Python `s[:k]` (a possibly negative bound is taken from the end,
clamped at zero). -/
def pySliceTo (s : List Char) (k : Int) : List Char :=
  if 0 ≤ k then s.take k.toNat else s.take ((s.length : Int) + k).toNat

/-- `posixpath.basename`: the segment after the last slash. -/
def basenameL (s : List Char) : List Char :=
  s.foldl (fun acc c => if c = '/' then [] else acc ++ [c]) []

/-- Non-empty components of a path split on slashes. -/
def pathCompsAux (cur : List Char) : List Char → List (List Char)
  | [] => if cur = [] then [] else [cur.reverse]
  | c :: cs =>
    if c = '/' then
      if cur = [] then pathCompsAux [] cs else cur.reverse :: pathCompsAux [] cs
    else
      pathCompsAux (c :: cur) cs

def pathComps (s : List Char) : List (List Char) := pathCompsAux [] s

/-- One step of `posixpath.normpath` component processing (absolute paths:
`.` is dropped, `..` pops, popping past the root is a no-op). -/
def normStep (acc : List (List Char)) (comp : List Char) : List (List Char) :=
  if comp = ['.'] then acc
  else if comp = ['.', '.'] then acc.dropLast
  else acc ++ [comp]

/-- Components of `posixpath.abspath(p)` for an absolute, normalized `cwd`. -/
def absPartsL (cwd p : List Char) : List (List Char) :=
  let joined := if p.head? = some '/' then p else cwd ++ '/' :: p
  (pathComps joined).foldl normStep []

def commonPrefixLen : List (List Char) → List (List Char) → Nat
  | a :: as, b :: bs => if a = b then 1 + commonPrefixLen as bs else 0
  | _, _ => 0

/-- `posixpath.relpath(p, cwd)` for an absolute `cwd`. -/
def relpathL (cwd p : List Char) : List Char :=
  let pl := absPartsL cwd p
  let sl := absPartsL cwd cwd
  let i := commonPrefixLen sl pl
  let rel := List.replicate (sl.length - i) ['.', '.'] ++ pl.drop i
  if rel = [] then ['.'] else (rel.intersperse ['/']).flatten

/-- The atoms of the regular expressions produced by the glob-to-regex
translation in the hook: a literal character, `.` (any character), and
the starred character class excluding both separators. -/
inductive GlobTok where
  | lit (c : Char)
  | anyChar
  | starNonSep
deriving DecidableEq

/-- The regex text the hook builds:
`pattern.replace("**", ".*").replace("*", "[^/\\\\]*")` (the second replace
also rewrites the star introduced by the first). -/
def globRegexStringL (pat : List Char) : List Char :=
  replaceL "*".toList "[^/\\\\]*".toList (replaceL "**".toList ".*".toList pat)

/-- Parse the produced regex text.  The translation only emits literal
characters, `.`, and the group `[^/\\]*`; any other character is read as a
literal (the source patterns contain no further regex metacharacters). -/
def parseRegexL : List Char → List GlobTok
  | '[' :: '^' :: '/' :: '\\' :: '\\' :: ']' :: '*' :: rest => .starNonSep :: parseRegexL rest
  | '.' :: rest => .anyChar :: parseRegexL rest
  | c :: rest => .lit c :: parseRegexL rest
  | [] => []

/-- The suffixes of `s` reachable by consuming a run of non-separator
characters: the candidate continuations of `[^/\\]*`. -/
def nonSepSuffixes : List Char → List (List Char)
  | [] => [[]]
  | x :: xs => (x :: xs) :: (if x = '/' || x = '\\' then [] else nonSepSuffixes xs)

/-- `re.match` semantics for the emitted token language: the tokens must
match some prefix of the candidate, anchored at position 0.  The starred
class tries every reachable continuation (equivalent to greedy regex
matching with backtracking, which succeeds iff some split works). -/
def reMatch : List GlobTok → List Char → Bool
  | [], _ => true
  | .lit _ :: _, [] => false
  | .lit c :: ts, x :: xs => c = x && reMatch ts xs
  | .anyChar :: _, [] => false
  | .anyChar :: ts, _ :: xs => reMatch ts xs
  | .starNonSep :: ts, s => (nonSepSuffixes s).any fun s2 => reMatch ts s2

def globTokens (pattern : String) : List GlobTok :=
  parseRegexL (globRegexStringL pattern.toList)

/-- The candidate `normalized_relative_path` of `should_exclude_file`:
the path relative to `cwd` with backslashes replaced by slashes. -/
def normalizedRelPath (cwd file_path : String) : List Char :=
  replaceL "\\".toList "/".toList (relpathL cwd.toList file_path.toList)

/-- `AutoCommitHook.should_exclude_file`: true when the regex of some
pattern matches the base filename or the normalized relative path. -/
def should_exclude_file (patterns : List String) (cwd file_path : String) : Bool :=
  patterns.any fun pattern =>
    reMatch (globTokens pattern) (basenameL file_path.toList) ||
    reMatch (globTokens pattern) (normalizedRelPath cwd file_path)

example : should_exclude_file ["*.log"] "/repo" "app.log" = true := by decide
example : should_exclude_file ["*.log"] "/repo" "axlog" = true := by decide
example : should_exclude_file ["*.log"] "/repo" "app.py" = false := by decide
example : should_exclude_file [".env*"] "/repo" ".env" = true := by decide
example : relpathL "/repo".toList "app.log".toList = "app.log".toList := by decide
example : relpathL "/repo".toList "/other/x".toList = "../other/x".toList := by decide

/-! ## Effective configuration (the fields `AutoCommitHook` consumes) -/

/-- The template tokens (literal markers, written with escaped braces). -/
def tokToolName : String := "\x7b\x7btoolName\x7d\x7d"

def tokFileName : String := "\x7b\x7bfileName\x7d\x7d"

def tokFilePath : String := "\x7b\x7bfilePath\x7d\x7d"

def tokSessionId : String := "\x7b\x7bsessionId\x7d\x7d"

structure Config where
  enabled : Bool
  matcher : String
  timeout : Int
  description : String
  commitMessageTemplate : String
  excludePatterns : List String
  skipEmptyCommits : Bool
  addAllFiles : Bool
  branchRestrictions : List String
  maxCommitMessageLength : Int
deriving DecidableEq

/-- `AutoCommitHook.get_default_config`. -/
def get_default_config : Config where
  enabled := true
  matcher := "Edit|Write|MultiEdit"
  timeout := 30
  description := "Automatically commit file changes with contextual messages"
  commitMessageTemplate :=
    "Auto-commit: " ++ tokToolName ++ " modified " ++ tokFileName ++ "\n\n" ++
    "- File: " ++ tokFilePath ++ "\n" ++
    "- Tool: " ++ tokToolName ++ "\n" ++
    "- Session: " ++ tokSessionId ++ "\n\n" ++
    "🤖 Generated with Claude Code\n" ++
    "Co-Authored-By: Claude <noreply@anthropic.com>"
  excludePatterns :=
    ["*.log", "*.tmp", "*.temp", ".env*", "*.key", "*.pem", "*.p12", "*.pfx",
     "node_modules/**", ".git/**", "*.pyc", "__pycache__/**"]
  skipEmptyCommits := true
  addAllFiles := false
  branchRestrictions := []
  maxCommitMessageLength := 500

/-! ## Hook results and the execution environment -/

/-- The uniform result envelope (`data` holds the string-valued mapping
passed by `success`; `none` covers both an absent key and `None`). -/
structure HookResult where
  success : Option Bool := none
  error : Option String := none
  decision : Option String := none
  reason : Option String := none
  data : Option (List (String × String)) := none
  hook : Option String := none
deriving DecidableEq

/-- `HookBase.success`. -/
def success_result (name : String) (d : Option (List (String × String))) : HookResult :=
  { success := some true, data := d, hook := some name }

/-- `HookBase.error` (with the default `data=None`). -/
def error_result (name : String) (message : String) : HookResult :=
  { success := some false, error := some message, data := none, hook := some name }

/-- The external world of one invocation: `git` maps an argument list to
its stdout, or to its stderr on a non-zero exit; `fileExists` is
`os.path.exists`; `cwd` is `os.getcwd()` (absolute, normalized). -/
structure Env where
  git : List String → Except String String
  fileExists : String → Bool
  cwd : String

def revParseCmd : List String := ["rev-parse", "--git-dir"]

def branchCmd : List String := ["branch", "--show-current"]

def statusCmd : List String := ["status", "--porcelain"]

/-- `AutoCommitHook.run_git_command`: returns stdout, or raises
`Git command failed: <stderr>` on a non-zero exit. -/
def run_git_command (env : Env) (args : List String) : Except String String :=
  match env.git args with
  | Except.ok out => Except.ok out
  | Except.error err => Except.error ("Git command failed: " ++ err)

/-- `AutoCommitHook.is_git_repository`: the probe succeeds (exceptions are
swallowed into `False`). -/
def is_git_repository (env : Env) : Bool :=
  (run_git_command env revParseCmd).isOk

/-- `AutoCommitHook.is_branch_restricted`: `False` on an empty restriction
list (without running git) and on a failing branch query. -/
def is_branch_restricted (cfg : Config) (env : Env) : Bool :=
  if cfg.branchRestrictions.isEmpty then false
  else
    match run_git_command env branchCmd with
    | Except.ok out => cfg.branchRestrictions.contains (pyStrip out)
    | Except.error _ => false

/-- `AutoCommitHook.has_changes_to_commit`: `bool(status.strip())`, with a
failing query treated as no changes. -/
def has_changes_to_commit (env : Env) : Bool :=
  match run_git_command env statusCmd with
  | Except.ok status => !(pyStrip status = "")
  | Except.error _ => false

/-- The commit message before truncation: the four literal token
substitutions, in source order. -/
def rendered_message (cfg : Config) (tool_name : Option String) (file_path : String)
    (session_id : Option String) : List Char :=
  let file_name := basenameL file_path.toList
  let m1 := replaceL tokToolName.toList (pyOrStr tool_name "").toList
    cfg.commitMessageTemplate.toList
  let m2 := replaceL tokFileName.toList file_name m1
  let m3 := replaceL tokFilePath.toList file_path.toList m2
  replaceL tokSessionId.toList (pyOrStr session_id "unknown").toList m3

/-- `AutoCommitHook.generate_commit_message`: render, then truncate to
`message[:max_length - 3] + "..."` when the rendering is longer than
`max_length`. -/
def generate_commit_message (cfg : Config) (tool_name : Option String) (file_path : String)
    (session_id : Option String) : List Char :=
  let message := rendered_message cfg tool_name file_path session_id
  if cfg.maxCommitMessageLength < (message.length : Int) then
    pySliceTo message (cfg.maxCommitMessageLength - 3) ++ "...".toList
  else message

/-- The incoming tool event (`tool_input` values restricted to strings,
the only shape the hook reads). -/
structure InputData where
  tool_name : Option String := none
  tool_input : List (String × String) := []
  session_id : Option String := none

/-- The `file_path` lookup, falling back to `filePath` under the Python
`or`, then the falsiness gate `if not file_path`: `none` iff the driver
errors out. -/
def resolveFilePath (tool_input : List (String × String)) : Option String :=
  let v := pyOrS (tool_input.lookup "file_path") (tool_input.lookup "filePath")
  if pyTruthyS v then v else none

/-- `AutoCommitHook.execute`.  Returns the result envelope together with
the trace of git invocations (argument lists, in order).  The best-effort
event logging writes no result and runs no git command, so it is not
modelled.  Exceptions escaping `run_git_command` are caught by the
outermost handler and become `Auto-commit failed: ...` errors. -/
def execute (cfg : Config) (env : Env) (input : InputData) : HookResult × List (List String) :=
  match resolveFilePath input.tool_input with
  | none => (error_result "auto-commit" "No file path found in tool input", [])
  | some file_path =>
    if is_git_repository env = false then
      (success_result "auto-commit" (some [("message", "Not in a git repository, skipping commit")]),
       [revParseCmd])
    else if should_exclude_file cfg.excludePatterns env.cwd file_path then
      (success_result "auto-commit" (some [("message", "File excluded from auto-commit: " ++ file_path)]),
       [revParseCmd])
    else
      let branchTrace := if cfg.branchRestrictions.isEmpty then [] else [branchCmd]
      if is_branch_restricted cfg env then
        (success_result "auto-commit" (some [("message", "Current branch is restricted from auto-commits")]),
         [revParseCmd] ++ branchTrace)
      else if env.fileExists file_path = false then
        (error_result "auto-commit" ("File does not exist: " ++ file_path),
         [revParseCmd] ++ branchTrace)
      else
        match run_git_command env ["add", file_path] with
        | Except.error e =>
          (error_result "auto-commit" ("Auto-commit failed: " ++ e),
           [revParseCmd] ++ branchTrace ++ [["add", file_path]])
        | Except.ok _ =>
          let statusTrace := if cfg.skipEmptyCommits then [statusCmd] else []
          if cfg.skipEmptyCommits && !(has_changes_to_commit env) then
            (success_result "auto-commit" (some [("message", "No changes to commit")]),
             [revParseCmd] ++ branchTrace ++ [["add", file_path]] ++ statusTrace)
          else
            let commit_message := String.mk (generate_commit_message cfg input.tool_name file_path input.session_id)
            match run_git_command env ["commit", "-m", commit_message] with
            | Except.error e =>
              (error_result "auto-commit" ("Auto-commit failed: " ++ e),
               [revParseCmd] ++ branchTrace ++ [["add", file_path]] ++ statusTrace ++
                 [["commit", "-m", commit_message]])
            | Except.ok _ =>
              (success_result "auto-commit"
                 (some [("message", "Successfully committed " ++ String.mk (basenameL file_path.toList)),
                        ("filePath", file_path),
                        ("commitMessage", commit_message)]),
               [revParseCmd] ++ branchTrace ++ [["add", file_path]] ++ statusTrace ++
                 [["commit", "-m", commit_message]])

/-! ## Result-to-exit-code projection (`HookBase.output_result`) -/

/-- What one invocation prints and the exit code it terminates with. -/
structure HookOutput where
  stdout : Option String := none
  stderr : Option String := none
  exitCode : Nat := 0
deriving DecidableEq

/-- Python `print(x)` text of an optional string (`None` prints "None"). -/
def pyShowOpt : Option String → String
  | some s => s
  | none => "None"

def jsonStr (s : String) : String := "\"" ++ s ++ "\""

/-- Rendering of `json.dumps` on a string-valued mapping (escaping inside
keys and values is not modelled; the claims depend only on which value is
printed, not on quoting details). -/
def jsonDumpsData (d : List (String × String)) : String :=
  "\x7b" ++ String.intercalate ", " (d.map fun kv => jsonStr kv.1 ++ ": " ++ jsonStr kv.2) ++ "\x7d"

/-- Rendering of `json.dumps` on a full result envelope (present fields
only, same caveat as `jsonDumpsData`). -/
def jsonDumpsResult (r : HookResult) : String :=
  let fields :=
    (match r.success with | some b => [jsonStr "success" ++ ": " ++ (if b then "true" else "false")] | none => []) ++
    (match r.error with | some e => [jsonStr "error" ++ ": " ++ jsonStr e] | none => []) ++
    (match r.decision with | some d => [jsonStr "decision" ++ ": " ++ jsonStr d] | none => []) ++
    (match r.reason with | some s => [jsonStr "reason" ++ ": " ++ jsonStr s] | none => []) ++
    (match r.data with | some d => [jsonStr "data" ++ ": " ++ jsonDumpsData d] | none => []) ++
    (match r.hook with | some h => [jsonStr "hook" ++ ": " ++ jsonStr h] | none => [])
  "\x7b" ++ String.intercalate ", " fields ++ "\x7d"

/-- Python truthiness of the `data` field: an absent key, `None`, and an
empty mapping are all falsy. -/
def dataTruthy : Option (List (String × String)) → Bool
  | some d => !d.isEmpty
  | none => false

/-- `HookBase.output_result`. -/
def output_result (r : HookResult) : HookOutput :=
  if r.success = some false then
    { stderr := some (pyShowOpt r.error),
      exitCode := if r.decision = some "block" then 2 else 1 }
  else if r.decision = some "block" then
    { stderr := some (pyShowOpt r.reason), exitCode := 2 }
  else if r.decision = some "approve" then
    { stdout := some (jsonDumpsResult r), exitCode := 0 }
  else
    { stdout := if dataTruthy r.data then some (jsonDumpsData (r.data.getD [])) else none,
      exitCode := 0 }

/-- A fixed concrete environment: inside a git repository, every file
exists, every git command succeeds with empty output. -/
def env0 : Env where
  git := fun _ => Except.ok ""
  fileExists := fun _ => true
  cwd := "/repo"

example :
    (execute get_default_config env0
      { tool_name := some "Edit", tool_input := [("file_path", "app.log")], session_id := some "s" }) =
    (success_result "auto-commit" (some [("message", "File excluded from auto-commit: app.log")]),
     [revParseCmd]) := by decide

/-! ## Configuration layering

`HookBase.__init__` merges `{**self.get_default_config(), **(config or {})}`;
`AutoCommitHook.__init__` first folds an existing config file in with
`{**file_config, **(config or {})}`.  JSON objects are embedded as partial
maps from keys to values, keeping the merges shallow and key-wise. -/

def JDict (α : Type) := String → Option α

def emptyJDict {α : Type} : JDict α := fun _ => none

/-- Python `{**a, **b}` at one key: the later dictionary wins. -/
def jmerge {α : Type} (a b : JDict α) : JDict α := fun k =>
  match b k with
  | some v => some v
  | none => a k

/-- `HookBase.__init__`: defaults overridden by `config or {}`. -/
def hook_base_config {α : Type} (defaults : JDict α) (config : Option (JDict α)) : JDict α :=
  jmerge defaults (config.getD emptyJDict)

/-- `AutoCommitHook.__init__`: when the config file exists its
`defaultConfig` object is folded under the explicit argument before the
base-class merge with the built-in defaults. -/
def auto_commit_config {α : Type} (defaults fileConfig : JDict α) (fileExists : Bool)
    (config : Option (JDict α)) : JDict α :=
  hook_base_config defaults
    (if fileExists then some (jmerge fileConfig (config.getD emptyJDict)) else config)

/-! ## LLM client cache (`_get_llm`) -/

/-- The process environment variables `_get_llm` reads. -/
structure LLMEnv where
  litellmProxyUrl : Option String := none
  litellmApiKey : Option String := none
  litellmMasterKey : Option String := none

/-- The observable constructor arguments of the `ChatOpenAI` client. -/
structure ChatClient where
  baseUrl : String
  apiKey : String
  model : String
  temperature : Int
  kwargs : List (String × String)
deriving DecidableEq

/-- The client `_get_llm` builds on a cache miss (`os.getenv` defaults,
with the `or` falling through falsy values of `LITELLM_API_KEY`). -/
def mkChatOpenAI (env : LLMEnv) (model : String) (temperature : Int)
    (kwargs : List (String × String)) : ChatClient where
  baseUrl := env.litellmProxyUrl.getD "http://localhost:4000"
  apiKey := pyOrStr env.litellmApiKey (env.litellmMasterKey.getD "sk-1234")
  model := model
  temperature := temperature
  kwargs := kwargs

/-- `_get_llm`: the module-level `_llm_cache` is passed and returned
explicitly; the key is `f"{model}_{temperature}"`. -/
def get_llm (env : LLMEnv) (model : String) (temperature : Int)
    (kwargs : List (String × String)) (cache : List (String × ChatClient)) :
    ChatClient × List (String × ChatClient) :=
  let cache_key := model ++ "_" ++ toString temperature
  match cache.lookup cache_key with
  | some c => (c, cache)
  | none =>
    let c := mkChatOpenAI env model temperature kwargs
    (c, (cache_key, c) :: cache)

/-! ## Claim predicates for the exit-code projection -/

/-- The exit-code table exactly as claimed: in the plain-success row the
`data` field is printed whenever it is present. -/
def OutputTableAsClaimed (r : HookResult) : Prop :=
  (r.success = some false →
    (output_result r).stdout = none ∧
    (∀ e, r.error = some e → (output_result r).stderr = some e) ∧
    (output_result r).exitCode = (if r.decision = some "block" then 2 else 1)) ∧
  (r.success ≠ some false → r.decision = some "block" →
    (output_result r).stdout = none ∧
    (∀ s, r.reason = some s → (output_result r).stderr = some s) ∧
    (output_result r).exitCode = 2) ∧
  (r.success ≠ some false → r.decision = some "approve" →
    (output_result r).stdout = some (jsonDumpsResult r) ∧
    (output_result r).stderr = none ∧
    (output_result r).exitCode = 0) ∧
  (r.success ≠ some false → r.decision ≠ some "block" → r.decision ≠ some "approve" →
    (∀ d, r.data = some d → (output_result r).stdout = some (jsonDumpsData d)) ∧
    (output_result r).stderr = none ∧
    (output_result r).exitCode = 0)

/-- The exit-code table as the code implements it: in the plain-success
row the `data` field is printed only when it is truthy (present and
non-empty); an absent, null, or empty mapping prints nothing. -/
def OutputTableTruthy (r : HookResult) : Prop :=
  (r.success = some false →
    (output_result r).stdout = none ∧
    (∀ e, r.error = some e → (output_result r).stderr = some e) ∧
    (output_result r).exitCode = (if r.decision = some "block" then 2 else 1)) ∧
  (r.success ≠ some false → r.decision = some "block" →
    (output_result r).stdout = none ∧
    (∀ s, r.reason = some s → (output_result r).stderr = some s) ∧
    (output_result r).exitCode = 2) ∧
  (r.success ≠ some false → r.decision = some "approve" →
    (output_result r).stdout = some (jsonDumpsResult r) ∧
    (output_result r).stderr = none ∧
    (output_result r).exitCode = 0) ∧
  (r.success ≠ some false → r.decision ≠ some "block" → r.decision ≠ some "approve" →
    (∀ d, r.data = some d → d ≠ [] → (output_result r).stdout = some (jsonDumpsData d)) ∧
    ((r.data = none ∨ r.data = some []) → (output_result r).stdout = none) ∧
    (output_result r).stderr = none ∧
    (output_result r).exitCode = 0)

/-! ## Shared helper lemmas -/

theorem any_perm {α : Type} {l₁ l₂ : List α} (h : l₁.Perm l₂) (f : α → Bool) :
    l₁.any f = l₂.any f := by
  induction h with
  | nil => rfl
  | cons a _ ih => simp only [List.any_cons, ih]
  | swap a b l => simp only [List.any_cons]; cases f a <;> cases f b <;> simp
  | trans _ _ ih1 ih2 => exact ih1.trans ih2

theorem is_git_repository_iff (env : Env) :
    is_git_repository env = (env.git revParseCmd).isOk := by
  unfold is_git_repository run_git_command
  cases env.git revParseCmd <;> rfl

/-! ## Claims -/

/-- C1 counterexample input: an excluded file inside a git repository. -/
def inExcluded : InputData :=
  { tool_name := some "Edit", tool_input := [("file_path", "app.log")], session_id := some "s" }

/-- C1 (as stated) is false: for the input whose resolved path `app.log`
matches the default exclude pattern `*.log`, executed inside a git
repository, the git trace is non-empty — the repository probe
`rev-parse --git-dir` runs before the exclusion check. -/
theorem c1_counterexample :
    resolveFilePath inExcluded.tool_input = some "app.log" ∧
    should_exclude_file get_default_config.excludePatterns env0.cwd "app.log" = true ∧
    (execute get_default_config env0 inExcluded).2 ≠ [] := by decide

/-- C1 (amended): whenever the resolved file path is excluded and the
repository probe succeeds, `execute` returns the SoftSkip
`File excluded from auto-commit: <path>` and the only git command invoked
is the repository probe `rev-parse --git-dir`; in particular no staging,
status, branch, or commit command runs. -/
theorem excluded_file_soft_skip (cfg : Config) (env : Env) (input : InputData)
    (file_path : String)
    (hfp : resolveFilePath input.tool_input = some file_path)
    (hrepo : is_git_repository env = true)
    (hexcl : should_exclude_file cfg.excludePatterns env.cwd file_path = true) :
    execute cfg env input =
      (success_result "auto-commit"
        (some [("message", "File excluded from auto-commit: " ++ file_path)]),
       [revParseCmd]) := by
  unfold execute
  rw [hfp]
  simp [hrepo, hexcl]

theorem excluded_file_soft_skip_witness :
    execute get_default_config env0 inExcluded =
      (success_result "auto-commit"
        (some [("message", "File excluded from auto-commit: app.log")]),
       [revParseCmd]) :=
  excluded_file_soft_skip get_default_config env0 inExcluded "app.log"
    (by decide) (by decide) (by decide)

/-- C2: with `skipEmptyCommits` enabled, when the run reaches staging
(repository probe ok, not excluded, branch unrestricted, file exists, the
`add` succeeds) and the subsequent `status --porcelain` query strips to
empty (or fails, which the code treats the same), `execute` returns the
SoftSkip `No changes to commit` and no invoked git command is a `commit`. -/
theorem empty_commit_soft_skip (cfg : Config) (env : Env) (input : InputData)
    (file_path : String)
    (hskip : cfg.skipEmptyCommits = true)
    (hfp : resolveFilePath input.tool_input = some file_path)
    (hrepo : is_git_repository env = true)
    (hexcl : should_exclude_file cfg.excludePatterns env.cwd file_path = false)
    (hbr : is_branch_restricted cfg env = false)
    (hex : env.fileExists file_path = true)
    (hadd : ∃ out, env.git ["add", file_path] = Except.ok out)
    (hstatus : ∀ out, env.git statusCmd = Except.ok out → pyStrip out = "") :
    (execute cfg env input).1 =
      success_result "auto-commit" (some [("message", "No changes to commit")]) ∧
    ∀ c ∈ (execute cfg env input).2, c.head? ≠ some "commit" := by
  have hnc : has_changes_to_commit env = false := by
    unfold has_changes_to_commit run_git_command
    cases hst : env.git statusCmd with
    | ok out => simp [hstatus out hst]
    | error e => simp
  obtain ⟨addOut, haddOut⟩ := hadd
  have hexe : execute cfg env input =
      (success_result "auto-commit" (some [("message", "No changes to commit")]),
       [revParseCmd] ++ (if cfg.branchRestrictions.isEmpty then [] else [branchCmd]) ++
         [["add", file_path]] ++ [statusCmd]) := by
    unfold execute
    rw [hfp]
    simp [hrepo, hexcl, hbr, hex, run_git_command, haddOut, hskip, hnc]
  refine ⟨by rw [hexe], ?_⟩
  rw [hexe]
  by_cases hbe : cfg.branchRestrictions.isEmpty <;>
    simp [hbe, revParseCmd, branchCmd, statusCmd]

/-- Witness environment for C2: a repository where the file exists, `add`
succeeds, and `status --porcelain` reports nothing. -/
def envNoChanges : Env where
  git := fun args => if args = statusCmd then Except.ok " \n" else Except.ok "out"
  fileExists := fun _ => true
  cwd := "/repo"

theorem empty_commit_soft_skip_witness :
    (execute get_default_config envNoChanges
      { tool_name := some "Edit", tool_input := [("file_path", "src/app.py")], session_id := some "abc" }).1 =
      success_result "auto-commit" (some [("message", "No changes to commit")]) ∧
    ∀ c ∈ (execute get_default_config envNoChanges
      { tool_name := some "Edit", tool_input := [("file_path", "src/app.py")], session_id := some "abc" }).2,
      c.head? ≠ some "commit" :=
  empty_commit_soft_skip get_default_config envNoChanges
    { tool_name := some "Edit", tool_input := [("file_path", "src/app.py")], session_id := some "abc" }
    "src/app.py" (by decide) (by decide) (by decide) (by decide) (by decide) (by decide)
    ⟨"out", rfl⟩ (by intro out h; injection h with h; rw [← h]; decide)

/-- Configuration exhibiting the C3 counterexample: a maximum length
smaller than the three ellipsis characters. -/
def cfgTinyMax : Config :=
  { get_default_config with commitMessageTemplate := "hello world", maxCommitMessageLength := 2 }

/-- C3 (as stated) is false: with `maxCommitMessageLength = 2` the Python
slice bound `max_length - 3` is negative, so `message[:-1] + "..."` is two
characters longer than the rendering — 13 characters here, far above the
limit, and not ending at the limit either. -/
theorem c3_counterexample :
    ¬ (((generate_commit_message cfgTinyMax (some "Edit") "a.py" (some "s")).length : Int) ≤
        cfgTinyMax.maxCommitMessageLength) := by decide

/-- C3 (amended): for every configuration with `maxCommitMessageLength ≥ 3`
the generated message is at most `maxCommitMessageLength` characters, and
whenever the pre-truncation rendering exceeds that limit the result ends
with the three-character ellipsis `...` and has exactly
`maxCommitMessageLength` characters. -/
theorem commit_message_truncation (cfg : Config) (tool_name : Option String)
    (file_path : String) (session_id : Option String)
    (h3 : 3 ≤ cfg.maxCommitMessageLength) :
    ((generate_commit_message cfg tool_name file_path session_id).length : Int) ≤
      cfg.maxCommitMessageLength ∧
    (cfg.maxCommitMessageLength <
        ((rendered_message cfg tool_name file_path session_id).length : Int) →
      (generate_commit_message cfg tool_name file_path session_id).length =
        cfg.maxCommitMessageLength.toNat ∧
      "...".toList <:+ generate_commit_message cfg tool_name file_path session_id) := by
  have hdots : "...".toList.length = 3 := by decide
  unfold generate_commit_message
  by_cases hlt : cfg.maxCommitMessageLength <
      ((rendered_message cfg tool_name file_path session_id).length : Int)
  · rw [if_pos hlt]
    have h0 : (0:Int) ≤ cfg.maxCommitMessageLength - 3 := by omega
    unfold pySliceTo
    rw [if_pos h0]
    have htake :
        (List.take (cfg.maxCommitMessageLength - 3).toNat
          (rendered_message cfg tool_name file_path session_id)).length =
        (cfg.maxCommitMessageLength - 3).toNat := by
      rw [List.length_take]
      exact Nat.min_eq_left (by omega)
    have hlen :
        (List.take (cfg.maxCommitMessageLength - 3).toNat
            (rendered_message cfg tool_name file_path session_id) ++ "...".toList).length =
        cfg.maxCommitMessageLength.toNat := by
      rw [List.length_append, htake, hdots]
      omega
    refine ⟨?_, fun _ => ⟨hlen, ⟨_, rfl⟩⟩⟩
    rw [hlen]
    omega
  · rw [if_neg hlt]
    exact ⟨by omega, fun h => absurd h hlt⟩

theorem commit_message_truncation_witness :
    ((generate_commit_message get_default_config (some "Edit") "src/app.py" (some "abc")).length : Int) ≤
      get_default_config.maxCommitMessageLength :=
  (commit_message_truncation get_default_config (some "Edit") "src/app.py" (some "abc")
    (by decide)).1

/-- The C4 counterexample result: a plain success whose `data` field is
present but an empty mapping. -/
def resultEmptyData : HookResult :=
  { success := some true, data := some [], hook := some "auto-commit" }

/-- C4 (as stated) is false: on a plain success carrying a present but
empty `data` mapping, `output_result` prints nothing to stdout (the
data-field gate in Python is a truthiness test), while the claimed table
requires the JSON of any present `data` field to be printed. -/
theorem c4_counterexample : ¬ OutputTableAsClaimed resultEmptyData := by
  intro h
  have hplain := (h.2.2.2 (by decide) (by decide) (by decide)).1 [] rfl
  have hnone : (output_result resultEmptyData).stdout = none := by decide
  rw [hnone] at hplain
  exact Option.noConfusion hplain

/-- C4 (amended): the projection is total and follows the claimed table,
except that in the plain-success row the `data` field is printed only when
it is present and non-empty; an absent, null, or empty-mapping `data`
prints nothing.  All other rows are as claimed. -/
theorem output_result_table (r : HookResult) : OutputTableTruthy r := by
  unfold OutputTableTruthy output_result
  by_cases hs : r.success = some false
  · refine ⟨fun _ => ?_, fun hns => absurd hs hns, fun hns => absurd hs hns,
      fun hns => absurd hs hns⟩
    rw [if_pos hs]
    exact ⟨rfl, fun e he => by simp [pyShowOpt, he], rfl⟩
  · refine ⟨fun h => absurd h hs, fun _ hb => ?_, fun _ ha => ?_, fun _ hnb hna => ?_⟩
    · rw [if_neg hs, if_pos hb]
      exact ⟨rfl, fun s hsr => by simp [pyShowOpt, hsr], rfl⟩
    · by_cases hb : r.decision = some "block"
      · rw [hb] at ha; exact absurd (Option.some.inj ha) (by decide)
      · rw [if_neg hs, if_neg hb, if_pos ha]
        exact ⟨rfl, rfl, rfl⟩
    · rw [if_neg hs, if_neg hnb, if_neg hna]
      refine ⟨fun d hd hne => ?_, fun hd => ?_, rfl, rfl⟩
      · have ht : dataTruthy (some d) = true := by
          cases d with
          | nil => exact absurd rfl hne
          | cons a l => rfl
        rw [hd]
        simp [ht]
      · rcases hd with hd | hd <;> simp [hd, dataTruthy]

theorem output_result_table_witness :
    (output_result { success := some true, data := some [("message", "ok")], hook := some "auto-commit" }).stdout =
      some (jsonDumpsData [("message", "ok")]) ∧
    (output_result { success := some true, data := some [("message", "ok")], hook := some "auto-commit" }).exitCode = 0 :=
  have h := output_result_table
    { success := some true, data := some [("message", "ok")], hook := some "auto-commit" }
  ⟨(h.2.2.2 (by decide) (by decide) (by decide)).1 [("message", "ok")] rfl (by decide),
   (h.2.2.2 (by decide) (by decide) (by decide)).2.2.2⟩

/-- C5: the effective configuration is the shallow key-wise merge with the
explicit override winning over the file configuration, which wins over the
built-in defaults; a key supplied by a higher layer (such as
`excludePatterns`) fully replaces the value from the lower layers at that
key. -/
theorem config_merge_layers {α : Type} (defaults fileConfig : JDict α) (fileExists : Bool)
    (config : Option (JDict α)) (k : String) :
    auto_commit_config defaults fileConfig fileExists config k =
      (match (config.getD emptyJDict) k with
       | some v => some v
       | none =>
         match (if fileExists then fileConfig k else none) with
         | some v => some v
         | none => defaults k) ∧
    (∀ v, (config.getD emptyJDict) k = some v →
      auto_commit_config defaults fileConfig fileExists config k = some v) := by
  have h1 : auto_commit_config defaults fileConfig fileExists config k =
      (match (config.getD emptyJDict) k with
       | some v => some v
       | none =>
         match (if fileExists then fileConfig k else none) with
         | some v => some v
         | none => defaults k) := by
    unfold auto_commit_config hook_base_config jmerge
    cases fileExists
    · simp
    · simp only [if_pos, Option.getD_some, if_true]
      cases hc : (config.getD emptyJDict) k <;> simp [hc]
  exact ⟨h1, fun v hv => by rw [h1, hv]⟩

/-- C5 witness layers: the override replaces the default pattern list. -/
def defaultsW : JDict (List String) := fun k =>
  if k = "excludePatterns" then some ["*.log", "*.tmp"] else none

def overrideW : JDict (List String) := fun k =>
  if k = "excludePatterns" then some ["custom/**"] else none

theorem config_merge_layers_witness :
    auto_commit_config defaultsW defaultsW true (some overrideW) "excludePatterns" =
      some ["custom/**"] ∧
    some ["custom/**"] ≠ some (["*.log", "*.tmp"] ++ ["custom/**"]) :=
  ⟨(config_merge_layers defaultsW defaultsW true (some overrideW) "excludePatterns").2
      ["custom/**"] rfl,
   by decide⟩

/-- C6: exclusion matching is existential over the pattern list, so any
permutation of the configured patterns yields the same decision for every
file path and working directory. -/
theorem should_exclude_file_perm (l₁ l₂ : List String) (cwd file_path : String)
    (h : l₁.Perm l₂) :
    should_exclude_file l₁ cwd file_path = should_exclude_file l₂ cwd file_path := by
  unfold should_exclude_file
  exact any_perm h _

theorem should_exclude_file_perm_witness :
    should_exclude_file ["*.log", "*.tmp"] "/repo" "notes.txt" =
      should_exclude_file ["*.tmp", "*.log"] "/repo" "notes.txt" :=
  should_exclude_file_perm ["*.log", "*.tmp"] ["*.tmp", "*.log"] "/repo" "notes.txt"
    (by decide)

/-- C7: when neither `file_path` nor `filePath` yields a truthy value in
the tool input, `execute` returns the error result whose message is
exactly `No file path found in tool input` (running no git command). -/
theorem no_file_path_error (cfg : Config) (env : Env) (input : InputData)
    (h1 : pyTruthyS (input.tool_input.lookup "file_path") = false)
    (h2 : pyTruthyS (input.tool_input.lookup "filePath") = false) :
    execute cfg env input =
      (error_result "auto-commit" "No file path found in tool input", []) := by
  have hres : resolveFilePath input.tool_input = none := by
    unfold resolveFilePath pyOrS
    rw [h1]
    simp [h2]
  unfold execute
  rw [hres]

theorem no_file_path_error_witness :
    execute get_default_config env0 { tool_name := some "Edit", tool_input := [], session_id := none } =
      (error_result "auto-commit" "No file path found in tool input", []) :=
  no_file_path_error get_default_config env0
    { tool_name := some "Edit", tool_input := [], session_id := none } (by decide) (by decide)

/-- C8: the path `axlog`, whose base filename does not end in `.log`, is
excluded under the default pattern list: the unescaped `.` of `*.log`
matches the `x`, so the translated regex matches `axlog`. -/
theorem dot_unescaped_excludes_axlog :
    should_exclude_file get_default_config.excludePatterns "/repo" "axlog" = true ∧
    ".log".toList.isSuffixOf "axlog".toList = false := by decide

/-- C9: two `_get_llm` calls with the same model and temperature share the
cache entry: when the key is initially absent, the first call constructs
the client from its own keyword arguments and the second call — whatever
its keyword arguments — returns exactly that cached client and leaves the
cache unchanged, so the extra keyword arguments of the second call are
ignored. -/
theorem get_llm_cache_hit (env : LLMEnv) (model : String) (temperature : Int)
    (kw1 kw2 : List (String × String)) (cache : List (String × ChatClient))
    (h : cache.lookup (model ++ "_" ++ toString temperature) = none) :
    (get_llm env model temperature kw1 cache).1 = mkChatOpenAI env model temperature kw1 ∧
    get_llm env model temperature kw2 (get_llm env model temperature kw1 cache).2 =
      ((get_llm env model temperature kw1 cache).1,
       (get_llm env model temperature kw1 cache).2) := by
  simp only [get_llm]
  rw [h]
  simp [List.lookup]

theorem get_llm_cache_hit_witness :
    (get_llm {} "gpt-4.1-nano-2025-04-14" 0 [("max_tokens", "100")] []).1 =
      mkChatOpenAI {} "gpt-4.1-nano-2025-04-14" 0 [("max_tokens", "100")] ∧
    get_llm {} "gpt-4.1-nano-2025-04-14" 0 [("top_p", "0.5")]
        (get_llm {} "gpt-4.1-nano-2025-04-14" 0 [("max_tokens", "100")] []).2 =
      ((get_llm {} "gpt-4.1-nano-2025-04-14" 0 [("max_tokens", "100")] []).1,
       (get_llm {} "gpt-4.1-nano-2025-04-14" 0 [("max_tokens", "100")] []).2) :=
  get_llm_cache_hit {} "gpt-4.1-nano-2025-04-14" 0 [("max_tokens", "100")] [("top_p", "0.5")]
    [] rfl

/-- C10: a `file_path` (or `filePath`) entry mapped to the empty string is
treated like an absent path: `execute` returns the
`No file path found in tool input` error, conflating falsy values with
absence. -/
theorem empty_string_path_conflated_with_absence :
    (execute get_default_config env0
      { tool_name := some "Edit", tool_input := [("file_path", "")], session_id := none }).1 =
      error_result "auto-commit" "No file path found in tool input" ∧
    (execute get_default_config env0
      { tool_name := some "Edit", tool_input := [("filePath", "")], session_id := none }).1 =
      error_result "auto-commit" "No file path found in tool input" := by decide
